import Mathlib

/-!
Verification of the bilibili-content-analyzer pipeline: a shallow embedding
of the collection, extraction, enrichment and metrics code, with theorems
checking the repository's specification sentences against it.

Conventions of the embedding:
* Python dict keys that may be absent are `Option` fields; `.get(k, d)`
  becomes `Option.getD`.
* Machine floats in the derived-metrics code are modelled as exact
  rationals (`ℚ`); integer counters as `ℕ`, unix timestamps as `ℤ`.
* A network / JSON failure that the Python code turns into an empty dict
  is modelled as `Option.none`.
* Opaque JSON payloads that the code merely copies around (subtitle,
  staff, argue_info, honor_reply) are modelled as `String`.
-/

namespace BilibiliAnalyzer

/-! ## Configuration (config.py, ANALYSIS_CONFIG and DATE_RANGE) -/

/-- `ANALYSIS_CONFIG['sentiment_threshold']['positive'] = 0.6`. -/
def sentiment_threshold_positive : ℚ := 6/10

/-- `ANALYSIS_CONFIG['sentiment_threshold']['negative'] = -0.1`. -/
def sentiment_threshold_negative : ℚ := -1/10

/-! ## Records

`ExtractedRec` is the dict produced by
`BilibiliDataCollector.extract_video_data`; `SearchRec` adds the
`search_keyword` and `collected_at` keys set in `collect_keyword_data`. -/

structure ExtractedRec where
  bvid : String
  aid : ℕ
  title : String
  author : String
  mid : ℕ
  description : String
  duration : String
  pubdate : ℤ
  created : ℤ
  view : ℕ
  danmaku : ℕ
  reply : ℕ
  favorite : ℕ
  coin : ℕ
  like : ℕ
  share : ℕ
  tag : String
  typeid : ℕ
  typename : String
  pic : String
  arcurl : String
  pts : ℕ
  arcrank : String
  badgepay : Bool
deriving DecidableEq, Repr

structure SearchRec extends ExtractedRec where
  search_keyword : String
  collected_at : ℤ
deriving DecidableEq, Repr

/-! ## Derived engagement metrics (data_analyzer.py, `_preprocess_data`) -/

/-- `df['engagement_score'] = like*3 + coin*5 + favorite*4 + share*6 + reply*2`. -/
def engagement_score (r : SearchRec) : ℕ :=
  r.like * 3 + r.coin * 5 + r.favorite * 4 + r.share * 6 + r.reply * 2

/-- `df['engagement_rate'] = np.where(view > 0, engagement_score / view * 100, 0)`. -/
def engagement_rate (r : SearchRec) : ℚ :=
  if (r.view : ℚ) > 0 then (engagement_score r : ℚ) / (r.view : ℚ) * 100 else 0

/-- The spec's formula for the engagement score, written from the spec's
words (`likes*3 + coins*5 + favorites*4 + shares*6 + comments*2`), for
comparison with the code's `engagement_score`. -/
def spec_engagementScore (likes coins favorites shares comments : ℕ) : ℕ :=
  likes * 3 + coins * 5 + favorites * 4 + shares * 6 + comments * 2

/-! ## Sentiment classification (data_analyzer.py, `analyze_sentiment`) -/

inductive Sentiment where
  | positive
  | neutral
  | negative
deriving DecidableEq, Repr

/-- The per-score classification in `analyze_sentiment`:
`'positive' if score > threshold['positive'] else 'negative' if
score < threshold['negative'] else 'neutral'`. -/
def classify_sentiment (sc : ℚ) : Sentiment :=
  if sc > sentiment_threshold_positive then .positive
  else if sc < sentiment_threshold_negative then .negative
  else .neutral

/-! ## Date filtering (data_collector.py, `filter_by_date`) -/

/-- `timestamp = pubdate if pubdate > 0 else created`. -/
def effective_timestamp (v : SearchRec) : ℤ :=
  if v.pubdate > 0 then v.pubdate else v.created

/-- `filter_by_date`: keep `video` when
`start_timestamp <= timestamp <= end_timestamp`. -/
def filter_by_date (videos : List SearchRec)
    (start_timestamp end_timestamp : ℤ) : List SearchRec :=
  videos.filter (fun v =>
    decide (start_timestamp ≤ effective_timestamp v) &&
    decide (effective_timestamp v ≤ end_timestamp))

/-! ## Deduplication (data_collector.py, `collect_all_data`)

`df.drop_duplicates(subset=['bvid'], keep='last')` over the concatenated
per-keyword lists: a row survives exactly when no later row has the same
`bvid`, and the surviving rows keep their relative order. -/

def drop_duplicates_keep_last : List SearchRec → List SearchRec
  | [] => []
  | r :: rs =>
    if rs.any (fun x => decide (x.bvid = r.bvid)) then drop_duplicates_keep_last rs
    else r :: drop_duplicates_keep_last rs

/-! ## Enrichment (data_collector.py, `enhance_video_data`)

`get_video_info` returns the detail payload on success and `{}` on any
transport / JSON / application error; an empty payload (or an exception
inside the loop body) makes the loop append the row unchanged. A row whose
`bvid` is falsy is skipped with `continue`. The detail payload is a dict
of optional keys; `fetch` abstracts the network call, `none` standing for
the empty dict / exception. Opaque JSON sub-payloads (subtitle, staff,
argue_info, honor_reply) are modelled as strings. -/

structure VideoStat where
  view : Option ℕ
  danmaku : Option ℕ
  reply : Option ℕ
  favorite : Option ℕ
  coin : Option ℕ
  like : Option ℕ
  share : Option ℕ
deriving DecidableEq, Repr

structure VideoOwner where
  name : Option String
  mid : Option ℕ
  face : Option String
deriving DecidableEq, Repr

structure VideoInfo where
  stat : Option VideoStat
  duration : Option ℕ
  cid : Option ℕ
  pages : Option ℕ
  owner : Option VideoOwner
  tname : Option String
  copyright : Option ℕ
  desc : Option String
  dynamic : Option String
  subtitle : Option String
  staff : Option String
  argue_info : Option String
  honor_reply : Option String
deriving DecidableEq, Repr

/-- The keys `enhanced_row.update({...})` adds beyond the search schema. -/
structure EnhancedExt where
  duration_seconds : ℕ
  cid : ℕ
  pages : ℕ
  owner_name : String
  owner_mid : ℕ
  owner_face : String
  tname : String
  copyright : ℕ
  desc : String
  dynamic : String
  subtitle : String
  staff : String
  argue_info : String
  honor_reply : String
deriving DecidableEq, Repr

/-- A row of the enhanced DataFrame: the (possibly updated) search-schema
columns, plus the extra detail columns when the detail call succeeded. -/
structure EnhancedRec where
  base : SearchRec
  ext : Option EnhancedExt
deriving DecidableEq, Repr

/-- The `enhanced_row.update({...})` merge: each value is
`video_info.get(k, default)` — stat counters default to the row's prior
value, owner fields to the row's author/mid, and the remaining keys to the
literal defaults in the source. -/
def merge_video_info (r : SearchRec) (info : VideoInfo) : EnhancedRec :=
  { base := { r with
      view := (info.stat.bind VideoStat.view).getD r.view,
      danmaku := (info.stat.bind VideoStat.danmaku).getD r.danmaku,
      reply := (info.stat.bind VideoStat.reply).getD r.reply,
      favorite := (info.stat.bind VideoStat.favorite).getD r.favorite,
      coin := (info.stat.bind VideoStat.coin).getD r.coin,
      like := (info.stat.bind VideoStat.like).getD r.like,
      share := (info.stat.bind VideoStat.share).getD r.share },
    ext := some {
      duration_seconds := info.duration.getD 0,
      cid := info.cid.getD 0,
      pages := info.pages.getD 1,
      owner_name := (info.owner.bind VideoOwner.name).getD r.author,
      owner_mid := (info.owner.bind VideoOwner.mid).getD r.mid,
      owner_face := (info.owner.bind VideoOwner.face).getD "",
      tname := info.tname.getD r.typename,
      copyright := info.copyright.getD 0,
      desc := info.desc.getD r.description,
      dynamic := info.dynamic.getD "",
      subtitle := info.subtitle.getD "",
      staff := info.staff.getD "",
      argue_info := info.argue_info.getD "",
      honor_reply := info.honor_reply.getD "" } }

/-- The enrichment loop: skip rows with falsy `bvid`, merge the detail
payload on success, append the row unchanged on failure. -/
def enhance_video_data (fetch : String → Option VideoInfo) :
    List SearchRec → List EnhancedRec
  | [] => []
  | r :: rs =>
    if r.bvid = "" then enhance_video_data fetch rs
    else match fetch r.bvid with
      | some info => merge_video_info r info :: enhance_video_data fetch rs
      | none => { base := r, ext := none } :: enhance_video_data fetch rs

/-! ## Search response handling (data_collector.py, `search_videos`)

The search endpoint's JSON envelope: `{code, message, data: {result:
[{result_type, data: [item...]}, ...]}}`. `search_videos` returns
`{'result': items}` on success and `{}` on transport error, JSON error or
non-zero application code; here success is `some items` and the empty
dict is `none`. The item type is left abstract. -/

structure ResultGroup (α : Type) where
  result_type : Option String
  data : Option (List α)
deriving DecidableEq, Repr

structure SearchData (α : Type) where
  result : Option (List (ResultGroup α))
deriving DecidableEq, Repr

structure SearchResponse (α : Type) where
  code : ℤ
  message : Option String
  data : Option (SearchData α)
deriving DecidableEq, Repr

/-- The body of `search_videos` after `response.json()`: scan
`data['result']` for the group with `result_type == 'video'`, else fall
back to the first group, else an empty list; non-zero `code`, transport or
JSON failure (the `none` argument) give the empty dict. -/
def search_videos_result {α : Type} (resp : Option (SearchResponse α)) :
    Option (List α) :=
  match resp with
  | none => none
  | some r =>
    if r.code = 0 then
      match (r.data.getD { result := none }).result with
      | none => some []
      | some groups =>
        match groups.find? (fun g => decide (g.result_type = some "video")) with
        | some g => some (g.data.getD [])
        | none =>
          match groups with
          | [] => some []
          | g :: _ => some (g.data.getD [])
    else none

/-! ## Extraction (data_collector.py, `extract_video_data`)

A raw search item is a dict of optional keys. The only operation in
`extract_video_data` that can raise is `title.replace(...)` on a
non-string title; the surrounding `try/except` then returns `{}`,
modelled as `none`. `TitleVal.nonstr` stands for any non-string value
under the `title` key; the `owner` key may hold a dict (whose `name` key
may be absent) or any other value, which `str()` renders. -/

inductive TitleVal where
  | str (s : String)
  | nonstr
deriving DecidableEq, Repr

inductive OwnerVal where
  | obj (name : Option String)
  | other (s : String)
deriving DecidableEq, Repr

structure RawVideoItem where
  bvid : Option String
  aid : Option ℕ
  title : Option TitleVal
  author : Option String
  owner : Option OwnerVal
  mid : Option ℕ
  description : Option String
  duration : Option String
  pubdate : Option ℤ
  created : Option ℤ
  play : Option ℕ
  video_review : Option ℕ
  review : Option ℕ
  favorites : Option ℕ
  coins : Option ℕ
  like : Option ℕ
  share : Option ℕ
  tag : Option String
  typeid : Option ℕ
  typename : Option String
  pic : Option String
  arcurl : Option String
  pts : Option ℕ
  arcrank : Option String
  badgepay : Option Bool
deriving DecidableEq, Repr

/-- Remove every occurrence of `pattern` from `s`, scanning left to
right — the semantics of Python `s.replace(pattern, '')`. The fuel
argument (instantiated to `s.length + 1`, enough for any non-empty
pattern) only makes the recursion structural. -/
def remove_all_aux (pattern : List Char) : ℕ → List Char → List Char
  | 0, s => s
  | _, [] => []
  | fuel + 1, c :: cs =>
    if pattern.isPrefixOf (c :: cs) then
      remove_all_aux pattern fuel ((c :: cs).drop pattern.length)
    else c :: remove_all_aux pattern fuel cs

def remove_all (pattern : List Char) (s : List Char) : List Char :=
  remove_all_aux pattern (s.length + 1) s

/-- `title.replace('<em class="keyword">', '').replace('</em>', '')`. -/
def strip_title_markup (t : String) : String :=
  String.mk (remove_all "</em>".data
    (remove_all "<em class=\"keyword\">".data t.data))

/-- The author branch of `extract_video_data`: the flat `author` key if
present, else the nested owner's `name` (or `str(owner)` for a non-dict
owner), else the empty string. -/
def extract_author (item : RawVideoItem) : String :=
  match item.author with
  | some a => a
  | none =>
    match item.owner with
    | some (.obj name) => name.getD ""
    | some (.other s) => s
    | none => ""

/-- `video_item.get('title', '')`, refusing a non-string value (on which
`.replace` raises). -/
def raw_title (item : RawVideoItem) : Option String :=
  match item.title with
  | some (.str s) => some s
  | some .nonstr => none
  | none => some ""

/-- `extract_video_data`: every key via `.get` with its documented
default; `none` is the `{}` returned when the `try` body raises. -/
def extract_video_data (item : RawVideoItem) : Option ExtractedRec :=
  (raw_title item).map (fun t =>
    { bvid := item.bvid.getD "", aid := item.aid.getD 0,
      title := strip_title_markup t,
      author := extract_author item,
      mid := item.mid.getD 0,
      description := item.description.getD "",
      duration := item.duration.getD "",
      pubdate := item.pubdate.getD 0,
      created := item.created.getD 0,
      view := item.play.getD 0,
      danmaku := item.video_review.getD 0,
      reply := item.review.getD 0,
      favorite := item.favorites.getD 0,
      coin := item.coins.getD 0,
      like := item.like.getD 0,
      share := item.share.getD 0,
      tag := item.tag.getD "",
      typeid := item.typeid.getD 0,
      typename := item.typename.getD "",
      pic := item.pic.getD "",
      arcurl := item.arcurl.getD "",
      pts := item.pts.getD 0,
      arcrank := item.arcrank.getD "",
      badgepay := item.badgepay.getD false })

/-! ## CLI dry-run (cli.py `main` and main.py `BilibiliAnalyzer`)

`--dry-run` makes `cli.main` call `analyzer.validate_config()` inside a
`try` whose `except Exception` handler logs and calls `sys.exit(1)`.
Python resolves the attribute against the methods the class defines. -/

/-- The methods defined in the `BilibiliAnalyzer` class body of main.py. -/
def bilibili_analyzer_methods : List String :=
  ["__init__", "_setup_logger", "_ensure_directories", "collect_only",
   "run_data_analysis", "run_visualization", "_display_analysis_summary",
   "run_full_analysis"]

inductive CliResult where
  | ok
  | errorExit
deriving DecidableEq, Repr

/-- The `--dry-run` branch of `cli.main`: the `analyzer.validate_config()`
call succeeds only if the class defines that method; otherwise the
`AttributeError` is caught by `except Exception` and the process exits
with status 1. -/
def cli_dry_run : CliResult :=
  if "validate_config" ∈ bilibili_analyzer_methods then .ok else .errorExit

/-! ## Per-title sentiment pipeline (data_analyzer.py, `analyze_sentiment`)

`scorer` abstracts `SnowNLP(title).sentiments` (whose scores lie in
`[0, 1]`); `none` models the `except` branch. An empty (or whitespace)
title, and a scorer failure, both record score 0.5 and label neutral. -/

def analyze_sentiment_label (scorer : String → Option ℚ) (title : String) :
    Sentiment :=
  if title.trim = "" then .neutral
  else
    match scorer title with
    | some sc => classify_sentiment sc
    | none => .neutral

def analyze_sentiment_score (scorer : String → Option ℚ) (title : String) : ℚ :=
  if title.trim = "" then 1/2
  else
    match scorer title with
    | some sc => sc
    | none => 1/2

/-- `negative_titles = df[df['sentiment'] == 'negative']['title'].tolist()`. -/
def negative_titles (scorer : String → Option ℚ) (titles : List String) :
    List String :=
  titles.filter (fun t => decide (analyze_sentiment_label scorer t = Sentiment.negative))

/-- `results['negative_keywords']` is set iff `negative_titles` is non-empty. -/
def negative_keywords_present (scorer : String → Option ℚ)
    (titles : List String) : Bool :=
  !(negative_titles scorer titles).isEmpty

/-! ## Shared concrete records for witnesses and counterexamples -/

def c1rec : SearchRec :=
  { bvid := "BV1xx411c7mD", aid := 1, title := "t", author := "a", mid := 1,
    description := "", duration := "", pubdate := 0, created := 0,
    view := 100, danmaku := 0, reply := 3, favorite := 2, coin := 5,
    like := 10, share := 1, tag := "", typeid := 0, typename := "",
    pic := "", arcurl := "", pts := 0, arcrank := "", badgepay := false,
    search_keyword := "k", collected_at := 0 }

def c4rec : SearchRec := { c1rec with pubdate := 5, created := 0 }

def c3recA : SearchRec := { c1rec with collected_at := 10 }

def c3recB : SearchRec := { c1rec with collected_at := 20, view := 101 }

def c6groupVideo : ResultGroup ℕ :=
  { result_type := some "video", data := some [1, 2] }

def c6groupOther : ResultGroup ℕ :=
  { result_type := some "media_bangumi", data := some [3] }

/-- A raw search item with every key absent. -/
def c8item : RawVideoItem :=
  { bvid := none, aid := none, title := none, author := none, owner := none,
    mid := none, description := none, duration := none, pubdate := none,
    created := none, play := none, video_review := none, review := none,
    favorites := none, coins := none, like := none, share := none,
    tag := none, typeid := none, typename := none, pic := none,
    arcurl := none, pts := none, arcrank := none, badgepay := none }

/-- The record `extract_video_data` produces for `c8item`: every field at
its documented default. -/
def c8rec : ExtractedRec :=
  { bvid := "", aid := 0, title := "", author := "", mid := 0,
    description := "", duration := "", pubdate := 0, created := 0,
    view := 0, danmaku := 0, reply := 0, favorite := 0, coin := 0,
    like := 0, share := 0, tag := "", typeid := 0, typename := "",
    pic := "", arcurl := "", pts := 0, arcrank := "", badgepay := false }

/-- A raw item carrying both a flat `author` string and a nested owner
with a `name`. -/
def c7item : RawVideoItem :=
  { c8item with
    title := some (.str "t"), author := some "flat",
    owner := some (.obj (some "nested")) }

def c10scorer (_ : String) : Option ℚ := some (7/10)

def c5recs : List SearchRec :=
  [{ c1rec with bvid := "v1" }, { c1rec with bvid := "v2" },
   { c1rec with bvid := "v3" }, { c1rec with bvid := "v4" },
   { c1rec with bvid := "v5" }]

def c5info : VideoInfo :=
  { stat := some { view := some 500, danmaku := some 1, reply := some 2,
                   favorite := some 3, coin := some 4, like := some 5,
                   share := some 6 },
    duration := some 100, cid := some 7, pages := some 1,
    owner := some { name := some "o", mid := some 8, face := some "f" },
    tname := some "tech", copyright := some 1, desc := some "d",
    dynamic := some "", subtitle := some "", staff := some "",
    argue_info := some "", honor_reply := some "" }

/-- A detail fetch that fails exactly for bvid `v3`. -/
def c5fetch (bvid : String) : Option VideoInfo :=
  if bvid = "v3" then none else some c5info

def c5recEmpty : SearchRec := { c1rec with bvid := "" }

def c5recB : SearchRec := { c1rec with bvid := "vB" }

/-- A detail fetch that fails for every bvid. -/
def c5fetchFail (_ : String) : Option VideoInfo := none

end BilibiliAnalyzer

namespace BilibiliAnalyzer

theorem mem_of_mem_dropDup {l : List SearchRec} {r : SearchRec}
    (h : r ∈ drop_duplicates_keep_last l) : r ∈ l := by
  induction l with
  | nil => simp [drop_duplicates_keep_last] at h
  | cons x xs ih =>
    by_cases hc : xs.any (fun y => decide (y.bvid = x.bvid)) = true
    · simp only [drop_duplicates_keep_last, if_pos hc] at h
      exact List.mem_cons_of_mem _ (ih h)
    · simp only [drop_duplicates_keep_last, if_neg hc] at h
      rcases List.mem_cons.mp h with h1 | h2
      · exact h1 ▸ List.mem_cons_self _ _
      · exact List.mem_cons_of_mem _ (ih h2)

theorem dropDup_bvid_nodup (l : List SearchRec) :
    (drop_duplicates_keep_last l).Pairwise (fun a b => a.bvid ≠ b.bvid) := by
  induction l with
  | nil => simp [drop_duplicates_keep_last]
  | cons x xs ih =>
    by_cases hc : xs.any (fun y => decide (y.bvid = x.bvid)) = true
    · simpa only [drop_duplicates_keep_last, if_pos hc] using ih
    · simp only [drop_duplicates_keep_last, if_neg hc]
      refine List.Pairwise.cons ?_ ih
      intro b hb hbeq
      apply hc
      rw [List.any_eq_true]
      exact ⟨b, mem_of_mem_dropDup hb, by simp [hbeq]⟩

theorem dropDup_covers (l : List SearchRec) :
    ∀ r ∈ l, ∃ s ∈ drop_duplicates_keep_last l, s.bvid = r.bvid := by
  induction l with
  | nil => intro r hr; cases hr
  | cons x xs ih =>
    intro r hr
    by_cases hc : xs.any (fun y => decide (y.bvid = x.bvid)) = true
    · simp only [drop_duplicates_keep_last, if_pos hc]
      rcases List.mem_cons.mp hr with rfl | hxs
      · rw [List.any_eq_true] at hc
        obtain ⟨y, hy, hyb⟩ := hc
        rw [decide_eq_true_eq] at hyb
        obtain ⟨s, hs, hsb⟩ := ih y hy
        exact ⟨s, hs, by rw [hsb, hyb]⟩
      · exact ih r hxs
    · simp only [drop_duplicates_keep_last, if_neg hc]
      rcases List.mem_cons.mp hr with rfl | hxs
      · exact ⟨r, List.mem_cons_self _ _, rfl⟩
      · obtain ⟨s, hs, hsb⟩ := ih r hxs
        exact ⟨s, List.mem_cons_of_mem _ hs, hsb⟩

theorem dropDup_last_wins (l : List SearchRec)
    (hmono : l.Pairwise (fun a b => a.collected_at ≤ b.collected_at)) :
    ∀ r ∈ l, ∀ s ∈ drop_duplicates_keep_last l, s.bvid = r.bvid →
      r.collected_at ≤ s.collected_at := by
  induction l with
  | nil => intro r hr; cases hr
  | cons x xs ih =>
    rw [List.pairwise_cons] at hmono
    obtain ⟨hx, hxs⟩ := hmono
    intro r hr s hs hsb
    by_cases hc : xs.any (fun y => decide (y.bvid = x.bvid)) = true
    · simp only [drop_duplicates_keep_last, if_pos hc] at hs
      rcases List.mem_cons.mp hr with rfl | hrxs
      · exact hx s (mem_of_mem_dropDup hs)
      · exact ih hxs r hrxs s hs hsb
    · simp only [drop_duplicates_keep_last, if_neg hc] at hs
      rcases List.mem_cons.mp hr with rfl | hrxs
      · rcases List.mem_cons.mp hs with rfl | hsxs
        · exact le_refl _
        · exact hx s (mem_of_mem_dropDup hsxs)
      · rcases List.mem_cons.mp hs with rfl | hsxs
        · exfalso
          apply hc
          rw [List.any_eq_true]
          exact ⟨r, hrxs, by simp [hsb]⟩
        · exact ih hxs r hrxs s hsxs hsb


/-- C1: for every record the derived engagement score equals the spec
formula (with `reply` playing the role of `comments`), and the engagement
rate is 0 when `view = 0` and `engagement_score / view * 100` otherwise. -/
theorem c1_engagement_metrics (r : SearchRec) :
    engagement_score r = spec_engagementScore r.like r.coin r.favorite r.share r.reply ∧
    (r.view = 0 → engagement_rate r = 0) ∧
    (0 < r.view → engagement_rate r = (engagement_score r : ℚ) / (r.view : ℚ) * 100) := by
  refine ⟨rfl, ?_, ?_⟩
  · intro h
    simp [engagement_rate, h]
  · intro h
    have hv : ((r.view : ℚ)) > 0 := by exact_mod_cast h
    simp [engagement_rate, hv]

/-- C1 witness: scenario B of the spec — `views=100, likes=10, coins=5,
favorites=2, shares=1, comments=3` gives score 75 and rate 75. -/
theorem c1_engagement_metrics_witness :
    (0 < c1rec.view ∧
      engagement_rate c1rec = (engagement_score c1rec : ℚ) / (c1rec.view : ℚ) * 100) ∧
    engagement_score c1rec = spec_engagementScore 10 5 2 1 3 ∧
    engagement_score c1rec = 75 ∧ engagement_rate c1rec = 75 := by
  refine ⟨⟨by decide, (c1_engagement_metrics c1rec).2.2 (by decide)⟩,
    (c1_engagement_metrics c1rec).1, by decide, ?_⟩
  rw [(c1_engagement_metrics c1rec).2.2 (by decide)]
  norm_num [engagement_score, c1rec]

/-- C2: the sentiment label is a pure function of the score and the two
configured thresholds, under strict inequalities: strictly above the
positive cutoff → positive, strictly below the negative cutoff → negative,
anything in between → neutral, and both exact boundary values → neutral. -/
theorem c2_sentiment_label (sc : ℚ) :
    (sentiment_threshold_positive < sc → classify_sentiment sc = .positive) ∧
    (sc < sentiment_threshold_negative → classify_sentiment sc = .negative) ∧
    (sentiment_threshold_negative ≤ sc → sc ≤ sentiment_threshold_positive →
      classify_sentiment sc = .neutral) ∧
    classify_sentiment sentiment_threshold_positive = .neutral ∧
    classify_sentiment sentiment_threshold_negative = .neutral := by
  refine ⟨?_, ?_, ?_, ?_, ?_⟩
  · intro h
    simp [classify_sentiment, h]
  · intro h
    have hnp : ¬ sentiment_threshold_positive < sc := by
      rw [sentiment_threshold_positive]
      rw [sentiment_threshold_negative] at h
      linarith
    simp [classify_sentiment, hnp, h]
  · intro h1 h2
    have hnp : ¬ sentiment_threshold_positive < sc := not_lt.mpr h2
    have hnn : ¬ sc < sentiment_threshold_negative := not_lt.mpr h1
    simp [classify_sentiment, hnp, hnn]
  · have hnp : ¬ sentiment_threshold_positive < sentiment_threshold_positive :=
      lt_irrefl _
    have hnn : ¬ sentiment_threshold_positive < sentiment_threshold_negative := by
      norm_num [sentiment_threshold_positive, sentiment_threshold_negative]
    simp [classify_sentiment, hnp, hnn]
  · have hnp : ¬ sentiment_threshold_positive < sentiment_threshold_negative := by
      norm_num [sentiment_threshold_positive, sentiment_threshold_negative]
    have hnn : ¬ sentiment_threshold_negative < sentiment_threshold_negative :=
      lt_irrefl _
    simp [classify_sentiment, hnp, hnn]

/-- C2 witness: score 0.65 (scenario C) is positive, −0.2 would be
negative, 0.5 is neutral. -/
theorem c2_sentiment_label_witness :
    classify_sentiment (13/20) = .positive ∧
    classify_sentiment (-1/5) = .negative ∧
    classify_sentiment (1/2) = .neutral :=
  ⟨(c2_sentiment_label (13/20)).1 (by norm_num [sentiment_threshold_positive]),
   (c2_sentiment_label (-1/5)).2.1 (by norm_num [sentiment_threshold_negative]),
   (c2_sentiment_label (1/2)).2.2.1 (by norm_num [sentiment_threshold_negative])
     (by norm_num [sentiment_threshold_positive])⟩

/-- C4: the date filter keeps exactly the records whose effective
timestamp (`pubdate` when positive, else `created`) lies in
`[start, end]`, inclusive at both ends. -/
theorem c4_date_filter (l : List SearchRec) (s e : ℤ) (v : SearchRec) :
    v ∈ filter_by_date l s e ↔
      v ∈ l ∧ s ≤ effective_timestamp v ∧ effective_timestamp v ≤ e := by
  simp [filter_by_date, List.mem_filter, and_assoc]

/-- C4 witness: a record with `pubdate = 5` survives the window `[0, 10]`. -/
theorem c4_date_filter_witness : c4rec ∈ filter_by_date [c4rec] 0 10 :=
  (c4_date_filter [c4rec] 0 10 c4rec).mpr ⟨by simp, by decide, by decide⟩

/-- C3: if the collection order is nondecreasing in `collected_at` (the
loop stamps `int(time.time())` as it goes), then after
`drop_duplicates(subset=['bvid'], keep='last')` the result has at most one
record per `bvid`, and for every collected record some surviving record
carries its `bvid` with a `collected_at` at least as large — so of two
duplicates with different `collectedAt`, the later-collected one wins. -/
theorem c3_dedup_keep_last (l : List SearchRec)
    (hmono : l.Pairwise (fun a b => a.collected_at ≤ b.collected_at)) :
    ((drop_duplicates_keep_last l).Pairwise (fun a b => a.bvid ≠ b.bvid)) ∧
    (∀ r ∈ l, ∃ s, s ∈ drop_duplicates_keep_last l ∧ s ∈ l ∧
      s.bvid = r.bvid ∧ r.collected_at ≤ s.collected_at) := by
  refine ⟨dropDup_bvid_nodup l, ?_⟩
  intro r hr
  obtain ⟨s, hs, hsb⟩ := dropDup_covers l r hr
  exact ⟨s, hs, mem_of_mem_dropDup hs, hsb,
    dropDup_last_wins l hmono r hr s hs hsb⟩

/-- C3 witness: scenario A — two records with the same `bvid` and
`collected_at` 10 and 20; exactly the later one survives. -/
theorem c3_dedup_keep_last_witness :
    drop_duplicates_keep_last [c3recA, c3recB] = [c3recB] ∧
    (∃ s, s ∈ drop_duplicates_keep_last [c3recA, c3recB] ∧
      s ∈ [c3recA, c3recB] ∧ s.bvid = c3recA.bvid ∧
      c3recA.collected_at ≤ s.collected_at) := by
  refine ⟨by decide, ?_⟩
  exact (c3_dedup_keep_last [c3recA, c3recB] (by decide)).2 c3recA (by decide)

/-- C5 counterexample: the claim as stated fails — a row whose `bvid` is
empty is skipped by the loop (`if not bvid: continue`), so with an input
of two records, one with empty `bvid` and one whose detail call fails, the
output has only one record and the empty-`bvid` input is missing. -/
theorem c5_counterexample :
    (enhance_video_data c5fetchFail [c5recEmpty, c5recB]).map EnhancedRec.base
      = [c5recB] ∧
    c5recEmpty ∉
      (enhance_video_data c5fetchFail [c5recEmpty, c5recB]).map EnhancedRec.base ∧
    (enhance_video_data c5fetchFail [c5recEmpty, c5recB]).length ≠ 2 :=
  ⟨by decide, by decide, by decide⟩

/-- C5 (amended): when every input record has a non-empty `bvid`, the
enrichment loop never aborts and maps each record independently — the
output is the input list, in order, with each record merged with its
detail payload when the call succeeded and byte-for-byte unchanged (and
without the extra detail columns) when it failed. -/
theorem c5_enrichment_partial_failure (fetch : String → Option VideoInfo)
    (l : List SearchRec) (hbv : ∀ r ∈ l, r.bvid ≠ "") :
    enhance_video_data fetch l = l.map (fun r =>
      match fetch r.bvid with
      | some info => merge_video_info r info
      | none => { base := r, ext := none }) := by
  induction l with
  | nil => rfl
  | cons x xs ih =>
    have hx : ¬ x.bvid = "" := hbv x (List.mem_cons_self _ _)
    have hxs : ∀ r ∈ xs, r.bvid ≠ "" := fun r hr => hbv r (List.mem_cons_of_mem _ hr)
    cases h : fetch x.bvid with
    | some info =>
      simp only [enhance_video_data, if_neg hx, h, List.map_cons, ih hxs]
    | none =>
      simp only [enhance_video_data, if_neg hx, h, List.map_cons, ih hxs]

/-- C5 witness: scenario D — five records, the detail call failing for the
third; all five are in the output, four enriched and `v3` unchanged. -/
theorem c5_enrichment_partial_failure_witness :
    enhance_video_data c5fetch c5recs = c5recs.map (fun r =>
      match c5fetch r.bvid with
      | some info => merge_video_info r info
      | none => { base := r, ext := none }) ∧
    (enhance_video_data c5fetch c5recs).length = 5 ∧
    (⟨{ c1rec with bvid := "v3" }, none⟩ : EnhancedRec) ∈
      enhance_video_data c5fetch c5recs :=
  ⟨c5_enrichment_partial_failure c5fetch c5recs (by decide), by decide, by decide⟩

/-- C6: for a response with application code 0, the client returns the
item list of the first group tagged `result_type = 'video'`; with no such
group it returns the first group's items; with an empty group list, a
missing `result` key, or a missing `data` key it returns the empty list —
never a failure. Only a transport/JSON failure (`none`) or a non-zero
code yields the failure dict. -/
theorem c6_search_result_groups {α : Type} :
    search_videos_result (α := α) none = none ∧
    (∀ r : SearchResponse α, r.code ≠ 0 → search_videos_result (some r) = none) ∧
    (∀ (msg : Option String) (groups : List (ResultGroup α)) (g : ResultGroup α),
      groups.find? (fun g => decide (g.result_type = some "video")) = some g →
      search_videos_result (some ⟨0, msg, some ⟨some groups⟩⟩) =
        some (g.data.getD [])) ∧
    (∀ (msg : Option String) (g : ResultGroup α) (gs : List (ResultGroup α)),
      (g :: gs).find? (fun g => decide (g.result_type = some "video")) = none →
      search_videos_result (some ⟨0, msg, some ⟨some (g :: gs)⟩⟩) =
        some (g.data.getD [])) ∧
    (∀ msg : Option String,
      search_videos_result (some ⟨0, msg, some ⟨some ([] : List (ResultGroup α))⟩⟩) =
        some []) ∧
    (∀ msg : Option String,
      search_videos_result (some ⟨0, msg, some ⟨(none : Option (List (ResultGroup α)))⟩⟩) =
        some []) ∧
    (∀ msg : Option String, search_videos_result (α := α) (some ⟨0, msg, none⟩) = some []) ∧
    (∀ (groups : List (ResultGroup α)) (g : ResultGroup α),
      groups.find? (fun g => decide (g.result_type = some "video")) = some g →
      g.result_type = some "video" ∧ g ∈ groups) := by
  refine ⟨rfl, ?_, ?_, ?_, fun msg => rfl, fun msg => rfl, fun msg => rfl, ?_⟩
  · intro r h
    simp [search_videos_result, h]
  · intro msg groups g hfind
    simp [search_videos_result, hfind]
  · intro msg g gs hfind
    simp [search_videos_result, hfind]
  · intro groups g hfind
    have hp := List.find?_some hfind
    rw [decide_eq_true_eq] at hp
    exact ⟨hp, List.mem_of_find?_eq_some hfind⟩

/-- C6 witness: with a `media_bangumi` group before a `video` group the
video group's items are returned; with only a non-video group the first
group's items are returned; a non-zero code fails. -/
theorem c6_search_result_groups_witness :
    search_videos_result (some ⟨0, none, some ⟨some [c6groupOther, c6groupVideo]⟩⟩) =
      some [1, 2] ∧
    search_videos_result (some ⟨0, none, some ⟨some [c6groupOther]⟩⟩) = some [3] ∧
    search_videos_result (some (⟨1, none, none⟩ : SearchResponse ℕ)) = none :=
  ⟨(c6_search_result_groups (α := ℕ)).2.2.1 none [c6groupOther, c6groupVideo]
      c6groupVideo (by decide),
   (c6_search_result_groups (α := ℕ)).2.2.2.1 none c6groupOther [] (by decide),
   (c6_search_result_groups (α := ℕ)).2.1 ⟨1, none, none⟩ (by decide)⟩

/-- C7 counterexample: the claim as stated fails — on an item carrying
both a flat `author` string and a nested owner name, `extract_video_data`
takes the flat value, not the nested one: the `if 'author' in video_item`
branch is checked first. -/
theorem c7_counterexample :
    (extract_video_data c7item).map ExtractedRec.author = some "flat" ∧
    (extract_video_data c7item).map ExtractedRec.author ≠ some "nested" :=
  ⟨by decide, by decide⟩

/-- C7 (amended): the flat `author` field is preferred; the nested owner
name is used only when the flat key is absent (a non-dict owner is
rendered by `str`), and with neither representation the author defaults
to the empty string. -/
theorem c7_author_flat_preferred (item : RawVideoItem) :
    (∀ a, item.author = some a → extract_author item = a) ∧
    (item.author = none → ∀ nm, item.owner = some (OwnerVal.obj (some nm)) →
      extract_author item = nm) ∧
    (item.author = none → item.owner = some (OwnerVal.obj none) →
      extract_author item = "") ∧
    (item.author = none → ∀ s, item.owner = some (OwnerVal.other s) →
      extract_author item = s) ∧
    (item.author = none → item.owner = none → extract_author item = "") ∧
    (∀ r, extract_video_data item = some r → r.author = extract_author item) := by
  refine ⟨?_, ?_, ?_, ?_, ?_, ?_⟩
  · intro a h
    simp [extract_author, h]
  · intro h nm h2
    simp [extract_author, h, h2]
  · intro h h2
    simp [extract_author, h, h2]
  · intro h s h2
    simp [extract_author, h, h2]
  · intro h h2
    simp [extract_author, h, h2]
  · intro r hr
    cases ht : raw_title item with
    | none => simp [extract_video_data, ht] at hr
    | some s =>
      simp only [extract_video_data, ht, Option.map_some', Option.some.injEq] at hr
      subst hr
      rfl

/-- C7 witness: flat wins on `c7item`; nested name is used when the flat
key is absent; neither gives the empty string. -/
theorem c7_author_flat_preferred_witness :
    extract_author c7item = "flat" ∧
    extract_author { c8item with owner := some (OwnerVal.obj (some "nested")) } = "nested" ∧
    extract_author c8item = "" :=
  ⟨(c7_author_flat_preferred c7item).1 "flat" rfl,
   (c7_author_flat_preferred _).2.1 rfl "nested" rfl,
   (c7_author_flat_preferred c8item).2.2.2.2.1 rfl rfl⟩

/-- C8: `extract_video_data` is total — its only non-record outcome is
the caught-exception empty dict, which arises exactly from a non-string
`title` (the one operation in the body that can raise); on every other
item it yields a record whose fields take the documented defaults when
the corresponding keys are missing. -/
theorem c8_extract_total_defaults (item : RawVideoItem) :
    (extract_video_data item = none → item.title = some TitleVal.nonstr) ∧
    (item.title ≠ some TitleVal.nonstr → (extract_video_data item).isSome = true) ∧
    (∀ r, extract_video_data item = some r →
      r.view = item.play.getD 0 ∧
      r.danmaku = item.video_review.getD 0 ∧
      r.reply = item.review.getD 0 ∧
      r.favorite = item.favorites.getD 0 ∧
      r.coin = item.coins.getD 0 ∧
      r.like = item.like.getD 0 ∧
      r.share = item.share.getD 0 ∧
      r.aid = item.aid.getD 0 ∧
      r.mid = item.mid.getD 0 ∧
      r.author = extract_author item ∧
      (item.title = none → r.title = "") ∧
      (item.author = none → item.owner = none → r.author = "") ∧
      (item.description = none → r.description = "")) := by
  refine ⟨?_, ?_, ?_⟩
  · intro h
    cases ht : item.title with
    | none => simp [extract_video_data, raw_title, ht] at h
    | some tv =>
      cases tv with
      | str s => simp [extract_video_data, raw_title, ht] at h
      | nonstr => rfl
  · intro hne
    cases ht : item.title with
    | none => simp [extract_video_data, raw_title, ht]
    | some tv =>
      cases tv with
      | str s => simp [extract_video_data, raw_title, ht]
      | nonstr => exact absurd ht hne
  · intro r hr
    cases ht : raw_title item with
    | none => simp [extract_video_data, ht] at hr
    | some s =>
      simp only [extract_video_data, ht, Option.map_some', Option.some.injEq] at hr
      subst hr
      refine ⟨rfl, rfl, rfl, rfl, rfl, rfl, rfl, rfl, rfl, rfl, ?_, ?_, ?_⟩
      · intro htn
        simp only [raw_title, htn, Option.some.injEq] at ht
        subst ht
        rfl
      · intro ha ho
        show extract_author item = ""
        simp [extract_author, ha, ho]
      · intro hd
        show item.description.getD "" = ""
        simp [hd]

/-- C8 witness: an item with every key absent extracts to the all-default
record. -/
theorem c8_extract_total_defaults_witness :
    (extract_video_data c8item).isSome = true ∧
    c8rec.view = 0 ∧ c8rec.title = "" ∧ c8rec.author = "" := by
  have hE : extract_video_data c8item = some c8rec := rfl
  have h := (c8_extract_total_defaults c8item).2.2 c8rec hE
  exact ⟨(c8_extract_total_defaults c8item).2.1 (by decide),
    h.1.trans rfl, (h.2.2.2.2.2.2.2.2.2.2.1 rfl).trans rfl,
    (h.2.2.2.2.2.2.2.2.2.2.2.1 rfl rfl).trans rfl⟩

/-- C9: the dry-run path is broken in the code — `cli.main` calls
`analyzer.validate_config()`, but the `BilibiliAnalyzer` class defines no
`validate_config` method, so the call raises `AttributeError`, is caught
by the blanket `except Exception`, and the process exits with status 1
instead of completing the validation successfully. -/
theorem c9_dry_run_crashes :
    cli_dry_run = CliResult.errorExit ∧
    "validate_config" ∉ bilibili_analyzer_methods :=
  ⟨by decide, by decide⟩

theorem classify_nonneg_ne_negative (sc : ℚ) (h0 : 0 ≤ sc) :
    classify_sentiment sc ≠ Sentiment.negative := by
  unfold classify_sentiment
  split_ifs with h1 h2
  · simp
  · exfalso
    rw [sentiment_threshold_negative] at h2
    linarith
  · simp

theorem label_ne_negative (scorer : String → Option ℚ)
    (hrange : ∀ t sc, scorer t = some sc → 0 ≤ sc ∧ sc ≤ 1) (title : String) :
    analyze_sentiment_label scorer title ≠ Sentiment.negative := by
  unfold analyze_sentiment_label
  split_ifs with h
  · simp
  · cases hs : scorer title with
    | none => simp
    | some sc =>
      simp only [hs]
      exact classify_nonneg_ne_negative sc (hrange title sc hs).1

/-- C10: with the shipped thresholds (0.6 / −0.1) and any scorer whose
scores lie in [0, 1] (SnowNLP's range), no title is ever labelled
negative — every label is positive or neutral, the empty-title and
scorer-failure fallbacks record score 0.5, and the `negative_keywords`
aggregate is never present. -/
theorem c10_negative_unreachable (scorer : String → Option ℚ)
    (hrange : ∀ t sc, scorer t = some sc → 0 ≤ sc ∧ sc ≤ 1) :
    (∀ title, analyze_sentiment_label scorer title ≠ Sentiment.negative) ∧
    (∀ title, analyze_sentiment_label scorer title = Sentiment.positive ∨
      analyze_sentiment_label scorer title = Sentiment.neutral) ∧
    (∀ title, title.trim = "" → analyze_sentiment_score scorer title = 1/2) ∧
    (∀ title, scorer title = none → analyze_sentiment_score scorer title = 1/2) ∧
    (∀ titles, negative_keywords_present scorer titles = false) := by
  refine ⟨label_ne_negative scorer hrange, ?_, ?_, ?_, ?_⟩
  · intro title
    have h := label_ne_negative scorer hrange title
    cases hl : analyze_sentiment_label scorer title with
    | positive => exact Or.inl rfl
    | neutral => exact Or.inr rfl
    | negative => exact absurd hl h
  · intro title h
    simp [analyze_sentiment_score, h]
  · intro title h
    unfold analyze_sentiment_score
    split_ifs with ht
    · rfl
    · simp only [h]
  · intro titles
    have hnil : negative_titles scorer titles = [] := by
      rw [negative_titles, List.filter_eq_nil_iff]
      intro t ht
      simp only [decide_eq_true_eq]
      exact label_ne_negative scorer hrange t
    simp [negative_keywords_present, hnil]

/-- C10 witness: a constant scorer with score 0.7 never yields a negative
label, and the negative-keyword aggregate is absent. -/
theorem c10_negative_unreachable_witness :
    analyze_sentiment_label c10scorer "好视频" ≠ Sentiment.negative ∧
    negative_keywords_present c10scorer ["好视频", ""] = false := by
  have hr : ∀ t sc, c10scorer t = some sc → 0 ≤ sc ∧ sc ≤ 1 := by
    intro t sc h
    rw [c10scorer, Option.some.injEq] at h
    subst h
    constructor <;> norm_num
  exact ⟨(c10_negative_unreachable c10scorer hr).1 "好视频",
    (c10_negative_unreachable c10scorer hr).2.2.2.2 ["好视频", ""]⟩

end BilibiliAnalyzer
